import Mathlib

/-!
Verification of the resume-analysis backend (`src/backend-api.js`).

The analysis pipeline is shallowly embedded: the input text is a `List Char`,
JavaScript string operations (`split(/\s+/)`, `split(pattern)`, `toLowerCase`,
`match(re, 'g')`) become executable Lean functions, and the two domain
functions `analyzeResume` and `calculateSectionScore` are translated
line-by-line from the source.
-/

namespace ResumeAnalysis

/-- The character class of JavaScript's regex `\s`. -/
def isWs (c : Char) : Bool :=
  c = ' ' || c = '\t' || c = '\n' || c = '\x0b' || c = '\x0c' || c = '\r' ||
  c = ' ' || c = ' ' ||
  (' ' ≤ c && c ≤ ' ') ||
  c = ' ' || c = ' ' || c = ' ' || c = ' ' ||
  c = '　' || c = '﻿'

mutual

/-- Accumulating worker for `splitWs`: `acc` holds the (reversed) current word. -/
def splitWsAux : List Char → List Char → List (List Char)
  | acc, [] => [acc.reverse]
  | acc, c :: rest =>
    if isWs c then acc.reverse :: splitWsSkip rest
    else splitWsAux (c :: acc) rest

/-- Worker for `splitWs` that is inside a maximal whitespace run. -/
def splitWsSkip : List Char → List (List Char)
  | [] => [[]]
  | c :: rest => if isWs c then splitWsSkip rest else splitWsAux [c] rest

end

/-- JavaScript `s.split(/\s+/)`: splits on maximal whitespace runs, keeping an
empty fragment at either end when the string starts or ends with whitespace.
In particular the result is never empty (`"".split` gives `[""]`). -/
def splitWs (s : List Char) : List (List Char) :=
  splitWsAux [] s

/-- JavaScript `s.split(/\n\n/)[0]`: the prefix of `s` before the first
occurrence of two consecutive newlines (all of `s` if there is none). -/
def takeUntilBlank : List Char → List Char
  | [] => []
  | [c] => [c]
  | c :: d :: rest =>
    if c = '\n' ∧ d = '\n' then []
    else c :: takeUntilBlank (d :: rest)

/-- Scanner for `countOccs`: while `skip` is positive the scanner is still
inside the previously matched occurrence and only consumes characters. -/
def countOccsAux (pat : List Char) : List Char → Nat → Nat
  | [], _ => 0
  | c :: rest, skip =>
    match skip with
    | n + 1 => countOccsAux pat rest n
    | 0 =>
      if pat.isPrefixOf (c :: rest) then 1 + countOccsAux pat rest (pat.length - 1)
      else countOccsAux pat rest 0

/-- Number of non-overlapping occurrences of `pat` in `s`, scanning left to
right — the length of `s.match(new RegExp(pat, 'g'))` for a literal pattern. -/
def countOccs (pat : List Char) (s : List Char) : Nat :=
  countOccsAux pat s 0

/-- At the start of `s`, the first alternative of the section pattern that
matches (each alternative is followed by a literal `:`); returns the length of
the matched text. Mirrors the regex engine trying `(?:a|b|…):` at one position. -/
def firstAltAt (alts : List (List Char)) (s : List Char) : Option Nat :=
  alts.findSome? fun a => if (a ++ [':']).isPrefixOf s then some (a.length + 1) else none

/-- Leftmost match of the section pattern in `s`: start index and length. -/
def firstMatch (alts : List (List Char)) : List Char → Option (Nat × Nat)
  | [] => (firstAltAt alts []).map fun n => (0, n)
  | c :: rest =>
    match firstAltAt alts (c :: rest) with
    | some n => some (0, n)
    | none => (firstMatch alts rest).map fun p => (p.1 + 1, p.2)

/-- JavaScript `String.prototype.toLowerCase`, per character (ASCII range). -/
def jsToLower (text : List Char) : List Char :=
  text.map Char.toLower

/-- Models `pattern.test(text)` for the case-insensitive section pattern `alts`. -/
def hasSection (alts : List (List Char)) (text : List Char) : Bool :=
  (firstMatch alts (jsToLower text)).isSome

/-- Models `text.split(pattern)[1]?.split(/\n\n/)[0] || ''`: the segment between
the first and second pattern match (to the end if there is no second match),
truncated at the first blank line; `[]` when the pattern does not match. -/
def sectionContent (alts : List (List Char)) (text : List Char) : List Char :=
  match firstMatch alts (jsToLower text) with
  | none => []
  | some (i, n) =>
    let afterFirst := text.drop (i + n)
    let seg :=
      match firstMatch alts ((jsToLower text).drop (i + n)) with
      | none => afterFirst
      | some p => afterFirst.take p.1
    takeUntilBlank seg

/-- Models `sectionContent.split(/\s+/).length`. -/
def sectionWordCount (alts : List (List Char)) (text : List Char) : Nat :=
  (splitWs (sectionContent alts text)).length

/-- Translation of `calculateSectionScore` from `src/backend-api.js`
(lines 140–146). -/
def calculateSectionScore (present : Bool) (wordCount : Nat) : Nat :=
  if !present then 0
  else if wordCount < 20 then 40
  else if wordCount < 50 then 70
  else if wordCount < 100 then 90
  else 100

/-- Alternatives of the `contact` detection regex (line 77). -/
def contactAlts : List (List Char) := ["email".data, "phone".data, "address".data]

/-- Alternatives of the `education` detection regex (line 78). -/
def educationAlts : List (List Char) :=
  ["education".data, "university".data, "college".data, "degree".data]

/-- Alternatives of the `experience` detection regex (line 79). -/
def experienceAlts : List (List Char) := ["experience".data, "work".data, "employment".data]

/-- Alternatives of the `skills` detection regex (line 80). -/
def skillsAlts : List (List Char) :=
  ["skills".data, "technologies".data, "programming".data, "languages".data]

/-- Alternatives of the `projects` detection regex (line 81). -/
def projectsAlts : List (List Char) := ["projects".data, "portfolio".data]

/-- Alternatives of the `achievements` detection regex (line 82). -/
def achievementsAlts : List (List Char) :=
  ["achievements".data, "awards".data, "accomplishments".data]

/-- The six sections and the alternatives of their detection regexes,
in `Object.entries` order (lines 76–83). -/
def sections : List (String × List (List Char)) :=
  [ ("contact", contactAlts),
    ("education", educationAlts),
    ("experience", experienceAlts),
    ("skills", skillsAlts),
    ("projects", projectsAlts),
    ("achievements", achievementsAlts) ]

/-- The per-section branch of the analysis loop (lines 97–103): first component
is the recommendation it pushes (if any), second the finding (if any). -/
def sectionOutput (text : List Char) (name : String) (alts : List (List Char)) :
    Option String × Option String :=
  if !hasSection alts text then
    (some ("Add a " ++ name ++ " section to your resume"), none)
  else if sectionWordCount alts text < 20 then
    (some ("Expand your " ++ name ++ " section with more details"), none)
  else
    (none, some ("Strong " ++ name ++ " section with " ++
      toString (sectionWordCount alts text) ++ " words"))

/-- The fixed action-verb list (line 115). -/
def actionVerbs : List (List Char) :=
  [ "led".data, "developed".data, "created".data, "managed".data,
    "implemented".data, "designed".data, "achieved".data ]

/-- Lines 116–119: total number of (substring, non-overlapping) occurrences of
the action verbs in the lowercased text. -/
def actionVerbCount (text : List Char) : Nat :=
  actionVerbs.foldl (fun count verb => count + countOccs verb (jsToLower text)) 0

/-- Models `Math.round` on a non-negative rational: round half up. -/
def jsRound (q : ℚ) : ℤ :=
  ⌊q + 1 / 2⌋

/-- The result object of `analyzeResume` (lines 132–137). `scores` keeps the
insertion order of the JavaScript object, as an association list. -/
structure AnalysisResult where
  overallScore : ℤ
  scores : List (String × Nat)
  findings : List String
  recommendations : List String
  deriving Repr, DecidableEq

/-- The `scores` object built by the loop of lines 90–95. -/
def sectionScores (text : List Char) : List (String × Nat) :=
  sections.map fun s =>
    (s.1, calculateSectionScore (hasSection s.2 text) (sectionWordCount s.2 text))

/-- The recommendations pushed by the per-section loop, in loop order. -/
def sectionRecommendations (text : List Char) : List String :=
  sections.filterMap fun s => (sectionOutput text s.1 s.2).1

/-- The findings pushed by the per-section loop, in loop order. -/
def sectionFindingsList (text : List Char) : List String :=
  sections.filterMap fun s => (sectionOutput text s.1 s.2).2

/-- Lines 107–112: the brevity / conciseness recommendation driven by the
total word count of the whole text. -/
def lengthRecommendations (text : List Char) : List String :=
  let totalWords := (splitWs text).length
  if totalWords < 200 then ["Your resume seems too brief. Add more detailed information."]
  else if 1000 < totalWords then ["Consider condensing your resume to be more concise."]
  else []

/-- Lines 121–122: the recommendation pushed when fewer than 5 action verbs
are found. -/
def verbRecommendations (text : List Char) : List String :=
  if actionVerbCount text < 5 then ["Use more action verbs to describe your achievements"]
  else []

/-- Lines 123–125: the finding pushed when at least 5 action verbs are found. -/
def verbFindingsList (text : List Char) : List String :=
  if actionVerbCount text < 5 then []
  else ["Good use of action verbs (" ++ toString (actionVerbCount text) ++ " found)"]

/-- Translation of `analyzeResume` from `src/backend-api.js` (lines 75–138). -/
def analyzeResume (text : List Char) : AnalysisResult :=
  { overallScore :=
      jsRound ((((sectionScores text).map Prod.snd).sum : ℚ) /
        ((sectionScores text).length : ℚ)),
    scores := sectionScores text,
    findings := sectionFindingsList text ++ verbFindingsList text,
    recommendations :=
      sectionRecommendations text ++ lengthRecommendations text ++ verbRecommendations text }

/-! ### The HTTP handler (lines 20–64)

The handler's effectful collaborators — multipart parsing, text extraction and
the two storage writes — are modelled as injected fallible operations; a thrown
JavaScript error becomes `Except.error` carrying the error's message. -/

/-- The uploaded file as produced by `parse-multipart` (`parts[0]`). -/
structure UploadedFile where
  filename : String
  type : String
  data : List Nat
  deriving Repr, DecidableEq

/-- Outcomes of the handler's four fallible steps. -/
structure HandlerDeps where
  parseMultipart : Except String UploadedFile
  extractText : UploadedFile → Except String (List Char)
  blobUpload : UploadedFile → Except String Unit
  recordCreate : UploadedFile → AnalysisResult → Except String Unit

/-- The body of the `try` block (lines 22–48): run the four steps in order,
stopping at the first failure (the thrown error), and produce the analysis. -/
def runAnalyzePipeline (d : HandlerDeps) : Except String AnalysisResult :=
  match d.parseMultipart with
  | Except.error e => Except.error e
  | Except.ok resumeFile =>
    match d.extractText resumeFile with
    | Except.error e => Except.error e
    | Except.ok text =>
      let analysis := analyzeResume text
      match d.blobUpload resumeFile with
      | Except.error e => Except.error e
      | Except.ok _ =>
        match d.recordCreate resumeFile analysis with
        | Except.error e => Except.error e
        | Except.ok _ => Except.ok analysis

/-- The two body shapes the handler can put in `context.res`. -/
inductive ResponseBody where
  | analysis (a : AnalysisResult)
  | failure (error details : String)
  deriving Repr, DecidableEq

/-- The HTTP response set by the handler. -/
structure Response where
  status : Nat
  body : ResponseBody
  deriving Repr, DecidableEq

/-- The exported handler (lines 20–64): 200 with the analysis on success,
500 with `{error, details}` when any step throws. -/
def handleAnalyzeRequest (d : HandlerDeps) : Response :=
  match runAnalyzePipeline d with
  | Except.ok analysis => { status := 200, body := ResponseBody.analysis analysis }
  | Except.error e =>
      { status := 500, body := ResponseBody.failure ("Failed to process resume") e }

/-! ### Concrete inputs used by the witnesses -/

/-- A text whose contact section holds 100+ words: `"email:"` followed by one
hundred copies of `" w"`. -/
def strongContactText : List Char :=
  "email:".data ++ (List.replicate 100 (' ' :: 'w' :: [])).flatten

/-- A short text with a present contact section. -/
def shortContactText : List Char :=
  "email: hi".data

/-- A text containing `led` only inside the longer word `misled`. -/
def misledText : List Char :=
  "He was misled".data

/-- Handler dependencies whose multipart-parsing step fails. -/
def badParseDeps : HandlerDeps where
  parseMultipart := Except.error ("Unexpected end of multipart data")
  extractText := fun _ => Except.ok []
  blobUpload := fun _ => Except.ok ()
  recordCreate := fun _ _ => Except.ok ()

/-! ### Helper lemmas -/

theorem analyzeResume_scores (text : List Char) :
    (analyzeResume text).scores = sectionScores text := rfl

theorem analyzeResume_overallScore (text : List Char) :
    (analyzeResume text).overallScore =
      jsRound ((((analyzeResume text).scores.map Prod.snd).sum : ℚ) /
        ((analyzeResume text).scores.length : ℚ)) := rfl

theorem analyzeResume_findings (text : List Char) :
    (analyzeResume text).findings = sectionFindingsList text ++ verbFindingsList text := rfl

theorem analyzeResume_recommendations (text : List Char) :
    (analyzeResume text).recommendations =
      sectionRecommendations text ++ lengthRecommendations text ++
        verbRecommendations text := rfl

/-- Both split workers always return at least one fragment. -/
theorem splitWs_workers_ne_nil (s : List Char) :
    (∀ acc, splitWsAux acc s ≠ []) ∧ splitWsSkip s ≠ [] := by
  induction s with
  | nil => exact ⟨fun acc => by simp [splitWsAux], by simp [splitWsSkip]⟩
  | cons c rest ih =>
    constructor
    · intro acc
      rw [splitWsAux]
      by_cases h : isWs c
      · simp [h]
      · simpa [h] using ih.1 (c :: acc)
    · rw [splitWsSkip]
      by_cases h : isWs c
      · simpa [h] using ih.2
      · simpa [h] using ih.1 [c]

/-- JavaScript's `split` never returns an empty array: the word count of any
string, even the empty one, is at least 1. -/
theorem one_le_splitWs_length (s : List Char) : 1 ≤ (splitWs s).length := by
  have h := (splitWs_workers_ne_nil s).1 []
  cases hs : splitWsAux [] s with
  | nil => exact absurd hs h
  | cons a l => simp [splitWs, hs]

theorem calculateSectionScore_le_100 (present : Bool) (wc : Nat) :
    calculateSectionScore present wc ≤ 100 := by
  unfold calculateSectionScore
  split
  · omega
  · split
    · omega
    · split
      · omega
      · split <;> omega

theorem calculateSectionScore_present_ge_40 (wc : Nat) :
    40 ≤ calculateSectionScore true wc := by
  unfold calculateSectionScore
  split
  · simp_all
  · split
    · omega
    · split
      · omega
      · split <;> omega

/-- Rounding a ratio of naturals is a natural-number division. -/
theorem jsRound_natCast_div (s k : ℕ) (hk : 0 < k) :
    jsRound ((s : ℚ) / (k : ℚ)) = ((2 * s + k) / (2 * k) : ℕ) := by
  unfold jsRound
  have hk2 : ((k : ℚ)) ≠ 0 := Nat.cast_ne_zero.mpr hk.ne'
  have h : (s : ℚ) / (k : ℚ) + 1 / 2 = ((2 * s + k : ℕ) : ℚ) / ((2 * k : ℕ) : ℚ) := by
    push_cast
    field_simp
    ring
  rw [h, Rat.floor_natCast_div_natCast]
  push_cast
  rfl

/-- A recommendation produced by some section's loop iteration is in the
final recommendation list. -/
theorem mem_recommendations_of_sectionOutput (text : List Char) {name : String}
    {alts : List (List Char)} {r : String} (hmem : (name, alts) ∈ sections)
    (h : (sectionOutput text name alts).1 = some r) :
    r ∈ (analyzeResume text).recommendations := by
  rw [analyzeResume_recommendations]
  exact List.mem_append_left _
    (List.mem_append_left _ (List.mem_filterMap.mpr ⟨(name, alts), hmem, h⟩))

/-- A finding produced by some section's loop iteration is in the final
findings list. -/
theorem mem_findings_of_sectionOutput (text : List Char) {name : String}
    {alts : List (List Char)} {r : String} (hmem : (name, alts) ∈ sections)
    (h : (sectionOutput text name alts).2 = some r) :
    r ∈ (analyzeResume text).findings := by
  rw [analyzeResume_findings]
  exact List.mem_append_left _ (List.mem_filterMap.mpr ⟨(name, alts), hmem, h⟩)

/-- The only recommendations a loop iteration can push are the "add" and the
"expand" messages for its own section name. -/
theorem sectionOutput_fst_shape (text : List Char) (name : String)
    (alts : List (List Char)) (r : String)
    (h : (sectionOutput text name alts).1 = some r) :
    r = "Add a " ++ name ++ " section to your resume" ∨
      r = "Expand your " ++ name ++ " section with more details" := by
  unfold sectionOutput at h
  split at h
  · exact Or.inl (Option.some.inj h).symm
  · split at h
    · exact Or.inr (Option.some.inj h).symm
    · simp at h

/-- In `sections` the name determines the pattern. -/
theorem sections_name_determines :
    ∀ p ∈ sections, ∀ q ∈ sections, p.1 = q.1 → p.2 = q.2 := by decide

/-- The "add"/"expand" messages of sections with different names differ. -/
theorem sections_messages_disjoint :
    ∀ p ∈ sections, ∀ q ∈ sections, p.1 ≠ q.1 →
      ("Add a " ++ p.1 ++ " section to your resume" ≠
        "Add a " ++ q.1 ++ " section to your resume") ∧
      ("Add a " ++ p.1 ++ " section to your resume" ≠
        "Expand your " ++ q.1 ++ " section with more details") ∧
      ("Expand your " ++ p.1 ++ " section with more details" ≠
        "Add a " ++ q.1 ++ " section to your resume") ∧
      ("Expand your " ++ p.1 ++ " section with more details" ≠
        "Expand your " ++ q.1 ++ " section with more details") := by decide

/-- No section's "add"/"expand" message collides with the three fixed
whole-document recommendations. -/
theorem sections_messages_ne_doc_messages :
    ∀ p ∈ sections,
      ("Add a " ++ p.1 ++ " section to your resume" ≠
          "Your resume seems too brief. Add more detailed information." ∧
        "Add a " ++ p.1 ++ " section to your resume" ≠
          "Consider condensing your resume to be more concise." ∧
        "Add a " ++ p.1 ++ " section to your resume" ≠
          "Use more action verbs to describe your achievements") ∧
      ("Expand your " ++ p.1 ++ " section with more details" ≠
          "Your resume seems too brief. Add more detailed information." ∧
        "Expand your " ++ p.1 ++ " section with more details" ≠
          "Consider condensing your resume to be more concise." ∧
        "Expand your " ++ p.1 ++ " section with more details" ≠
          "Use more action verbs to describe your achievements") := by decide

/-- The looked-up score of a section is the score of its own detection and
word count. -/
theorem sectionScores_lookup (text : List Char) {name : String}
    {alts : List (List Char)} (hmem : (name, alts) ∈ sections) :
    (sectionScores text).lookup name =
      some (calculateSectionScore (hasSection alts text) (sectionWordCount alts text)) := by
  simp only [sections, List.mem_cons, Prod.mk.injEq, List.not_mem_nil, or_false] at hmem
  rcases hmem with ⟨rfl, rfl⟩ | ⟨rfl, rfl⟩ | ⟨rfl, rfl⟩ | ⟨rfl, rfl⟩ | ⟨rfl, rfl⟩ | ⟨rfl, rfl⟩ <;>
    simp [sectionScores, sections, List.lookup]

/-! ### Claim theorems -/

/-- C1: for every input text, the `overallScore` of the `AnalysisResult`
returned by `analyzeResume` equals the rounding of the mean of the six section
scores in the `scores` mapping, and lies in the closed interval [0, 100]. -/
theorem overallScore_is_rounded_mean_in_range (text : List Char) :
    (analyzeResume text).overallScore =
      jsRound ((((analyzeResume text).scores.map Prod.snd).sum : ℚ) / (6 : ℚ)) ∧
    0 ≤ (analyzeResume text).overallScore ∧
    (analyzeResume text).overallScore ≤ 100 := by
  have hlen : (analyzeResume text).scores.length = 6 := by
    rw [analyzeResume_scores]
    simp [sectionScores, sections]
  have heq : (analyzeResume text).overallScore =
      jsRound ((((analyzeResume text).scores.map Prod.snd).sum : ℚ) / (6 : ℚ)) := by
    rw [analyzeResume_overallScore, hlen]
    norm_num
  have hsum : ((analyzeResume text).scores.map Prod.snd).sum ≤ 600 := by
    have hb : ∀ x ∈ (analyzeResume text).scores.map Prod.snd, x ≤ 100 := by
      intro x hx
      rw [analyzeResume_scores] at hx
      simp only [sectionScores, List.map_map, List.mem_map, Function.comp] at hx
      obtain ⟨s, _, rfl⟩ := hx
      exact calculateSectionScore_le_100 _ _
    calc ((analyzeResume text).scores.map Prod.snd).sum
        ≤ ((analyzeResume text).scores.map Prod.snd).length • 100 :=
          List.sum_le_card_nsmul _ _ hb
      _ = 600 := by
          rw [List.length_map, hlen]
          simp [smul_eq_mul]
  have hval : (analyzeResume text).overallScore =
      (((2 * ((analyzeResume text).scores.map Prod.snd).sum + 6) / (2 * 6) : ℕ) : ℤ) := by
    rw [heq, show ((6 : ℚ)) = (((6 : ℕ) : ℚ)) by norm_num,
      jsRound_natCast_div _ 6 (by norm_num)]
  refine ⟨heq, ?_, ?_⟩
  · rw [hval]
    exact Int.natCast_nonneg _
  · rw [hval]
    have h : (2 * ((analyzeResume text).scores.map Prod.snd).sum + 6) / (2 * 6) ≤ 100 := by
      omega
    exact_mod_cast h

/-- C2: the section scoring function returns 0 when the section is absent;
otherwise 40 when the word count is below 20, 70 when below 50, 90 when below
100, and 100 for every word count of 100 or more. -/
theorem calculateSectionScore_thresholds (wc : Nat) :
    calculateSectionScore false wc = 0 ∧
    (wc < 20 → calculateSectionScore true wc = 40) ∧
    (20 ≤ wc → wc < 50 → calculateSectionScore true wc = 70) ∧
    (50 ≤ wc → wc < 100 → calculateSectionScore true wc = 90) ∧
    (100 ≤ wc → calculateSectionScore true wc = 100) := by
  refine ⟨by simp [calculateSectionScore], ?_, ?_, ?_, ?_⟩
  · intro h
    simp [calculateSectionScore, h]
  · intro h1 h2
    have h20 : ¬ wc < 20 := by omega
    simp [calculateSectionScore, h20, h2]
  · intro h1 h2
    have h20 : ¬ wc < 20 := by omega
    have h50 : ¬ wc < 50 := by omega
    simp [calculateSectionScore, h20, h50, h2]
  · intro h
    have h20 : ¬ wc < 20 := by omega
    have h50 : ¬ wc < 50 := by omega
    have h100 : ¬ wc < 100 := by omega
    simp [calculateSectionScore, h20, h50, h100]

/-- Witness for C2 at word counts 10, 30, 60 and 150. -/
theorem calculateSectionScore_thresholds_witness :
    (calculateSectionScore false 10 = 0) ∧
    (10 < 20 ∧ calculateSectionScore true 10 = 40) ∧
    (20 ≤ 30 ∧ 30 < 50 ∧ calculateSectionScore true 30 = 70) ∧
    (50 ≤ 60 ∧ 60 < 100 ∧ calculateSectionScore true 60 = 90) ∧
    (100 ≤ 150 ∧ calculateSectionScore true 150 = 100) :=
  ⟨(calculateSectionScore_thresholds 10).1,
    ⟨by decide, (calculateSectionScore_thresholds 10).2.1 (by decide)⟩,
    ⟨by decide, by decide,
      (calculateSectionScore_thresholds 30).2.2.1 (by decide) (by decide)⟩,
    ⟨by decide, by decide,
      (calculateSectionScore_thresholds 60).2.2.2.1 (by decide) (by decide)⟩,
    ⟨by decide, (calculateSectionScore_thresholds 150).2.2.2.2 (by decide)⟩⟩

/-- C5: on the empty string, all six section scores are 0, the overall score
is 0, there are no findings, and the recommendations are exactly the six
"Add a … section" messages followed by the brevity recommendation and the
action-verb recommendation. -/
theorem analyzeResume_empty_string :
    (analyzeResume ("".data)).scores =
      [("contact", 0), ("education", 0), ("experience", 0), ("skills", 0),
        ("projects", 0), ("achievements", 0)] ∧
    (analyzeResume ("".data)).overallScore = 0 ∧
    (analyzeResume ("".data)).findings = [] ∧
    (analyzeResume ("".data)).recommendations =
      [ "Add a contact section to your resume",
        "Add a education section to your resume",
        "Add a experience section to your resume",
        "Add a skills section to your resume",
        "Add a projects section to your resume",
        "Add a achievements section to your resume",
        "Your resume seems too brief. Add more detailed information.",
        "Use more action verbs to describe your achievements" ] := by
  refine ⟨by decide, ?_, by decide, by decide⟩
  rw [analyzeResume_overallScore]
  have h1 : (((analyzeResume ("".data)).scores.map Prod.snd).sum) = 0 := by decide
  have h2 : ((analyzeResume ("".data)).scores.length) = 6 := by decide
  rw [h1, h2, jsRound_natCast_div 0 6 (by norm_num)]
  norm_num

/-- C6: the action-verb count is invariant under any per-character change of
letter case of the input text. -/
theorem actionVerbCount_case_insensitive (s t : List Char)
    (h : List.Forall₂ (fun c d => Char.toLower c = Char.toLower d) s t) :
    actionVerbCount s = actionVerbCount t := by
  have hl : jsToLower s = jsToLower t := by
    induction h with
    | nil => rfl
    | cons hcd htail ih =>
      simp only [jsToLower, List.map_cons] at ih ⊢
      rw [hcd, ih]
  simp [actionVerbCount, hl]

/-- Witness for C6: `"LED"` and `"led"` differ only in case and get the same
action-verb count. -/
theorem actionVerbCount_case_insensitive_witness :
    actionVerbCount ("LED".data) = actionVerbCount ("led".data) :=
  actionVerbCount_case_insensitive _ _
    (List.Forall₂.cons (by decide)
      (List.Forall₂.cons (by decide)
        (List.Forall₂.cons (by decide) List.Forall₂.nil)))

/-- C7: the handler either answers 200 with the analysis as its body, or 500
with an `{error, details}` body whose details are the failing step's message;
each of the four fallible steps, when it fails first, produces that 500
response, and no other status is possible. -/
theorem handler_response_dichotomy (d : HandlerDeps) :
    ((∃ a, runAnalyzePipeline d = Except.ok a ∧
        handleAnalyzeRequest d = { status := 200, body := ResponseBody.analysis a }) ∨
      (∃ e, runAnalyzePipeline d = Except.error e ∧
        handleAnalyzeRequest d =
          { status := 500, body := ResponseBody.failure ("Failed to process resume") e })) ∧
    (∀ e, d.parseMultipart = Except.error e →
      handleAnalyzeRequest d =
        { status := 500, body := ResponseBody.failure ("Failed to process resume") e }) ∧
    (∀ f e, d.parseMultipart = Except.ok f → d.extractText f = Except.error e →
      handleAnalyzeRequest d =
        { status := 500, body := ResponseBody.failure ("Failed to process resume") e }) ∧
    (∀ f text e, d.parseMultipart = Except.ok f → d.extractText f = Except.ok text →
      d.blobUpload f = Except.error e →
      handleAnalyzeRequest d =
        { status := 500, body := ResponseBody.failure ("Failed to process resume") e }) ∧
    (∀ f text e, d.parseMultipart = Except.ok f → d.extractText f = Except.ok text →
      d.blobUpload f = Except.ok () → d.recordCreate f (analyzeResume text) = Except.error e →
      handleAnalyzeRequest d =
        { status := 500, body := ResponseBody.failure ("Failed to process resume") e }) := by
  refine ⟨?_, ?_, ?_, ?_, ?_⟩
  · cases h : runAnalyzePipeline d with
    | ok a => exact Or.inl ⟨a, rfl, by simp [handleAnalyzeRequest, h]⟩
    | error e => exact Or.inr ⟨e, rfl, by simp [handleAnalyzeRequest, h]⟩
  · intro e hp
    simp [handleAnalyzeRequest, runAnalyzePipeline, hp, Except.bind]
  · intro f e hp hx
    simp [handleAnalyzeRequest, runAnalyzePipeline, hp, hx, Except.bind]
  · intro f text e hp hx hb
    simp [handleAnalyzeRequest, runAnalyzePipeline, hp, hx, hb, Except.bind]
  · intro f text e hp hx hb hr
    simp [handleAnalyzeRequest, runAnalyzePipeline, hp, hx, hb, hr, Except.bind]

/-- Witness for C7: a request whose multipart parsing fails gets a 500 with
the parse error as details. -/
theorem handler_response_dichotomy_witness :
    badParseDeps.parseMultipart = Except.error ("Unexpected end of multipart data") ∧
    handleAnalyzeRequest badParseDeps =
      { status := 500,
        body := ResponseBody.failure ("Failed to process resume")
          ("Unexpected end of multipart data") } :=
  ⟨rfl, (handler_response_dichotomy badParseDeps).2.1 ("Unexpected end of multipart data") rfl⟩

/-- C8: for every input text, the `scores` mapping contains exactly the six
fixed section keys, in order. -/
theorem scores_keys_are_the_six_sections (text : List Char) :
    (analyzeResume text).scores.map Prod.fst =
      ["contact", "education", "experience", "skills", "projects", "achievements"] := by
  rw [analyzeResume_scores]
  simp [sectionScores, sections]

/-- When a section's loop iteration pushes no recommendation, neither of the
two messages that mention that section can be in the recommendation list. -/
theorem section_message_not_in_recommendations (text : List Char) {name : String}
    {alts : List (List Char)} (hmem : (name, alts) ∈ sections)
    (hnone : (sectionOutput text name alts).1 = none) (t : String)
    (ht : t = "Add a " ++ name ++ " section to your resume" ∨
      t = "Expand your " ++ name ++ " section with more details") :
    t ∉ (analyzeResume text).recommendations := by
  have hdoc := sections_messages_ne_doc_messages (name, alts) hmem
  rw [analyzeResume_recommendations]
  intro hcon
  rcases List.mem_append.mp hcon with hcon2 | hverb
  · rcases List.mem_append.mp hcon2 with hsec | hlen
    · obtain ⟨⟨n', alts'⟩, hs', hout⟩ := List.mem_filterMap.mp hsec
      by_cases hn : n' = name
      · subst hn
        have halts : alts' = alts :=
          sections_name_determines (n', alts') hs' (n', alts) hmem rfl
        rw [halts, hnone] at hout
        cases hout
      · have hdisj := sections_messages_disjoint (n', alts') hs' (name, alts) hmem hn
        rcases sectionOutput_fst_shape text n' alts' t hout with rfl | rfl <;>
          rcases ht with h | h
        · exact hdisj.1 h
        · exact hdisj.2.1 h
        · exact hdisj.2.2.1 h
        · exact hdisj.2.2.2 h
    · by_cases h200 : (splitWs text).length < 200
      · simp only [lengthRecommendations, if_pos h200, List.mem_singleton] at hlen
        rcases ht with rfl | rfl
        · exact hdoc.1.1 hlen
        · exact hdoc.2.1 hlen
      · by_cases h1000 : 1000 < (splitWs text).length
        · simp only [lengthRecommendations, if_neg h200, if_pos h1000,
            List.mem_singleton] at hlen
          rcases ht with rfl | rfl
          · exact hdoc.1.2.1 hlen
          · exact hdoc.2.2.1 hlen
        · simp only [lengthRecommendations, if_neg h200, if_neg h1000,
            List.not_mem_nil] at hlen
  · by_cases hv : actionVerbCount text < 5
    · simp only [verbRecommendations, if_pos hv, List.mem_singleton] at hverb
      rcases ht with rfl | rfl
      · exact hdoc.1.2.2 hverb
      · exact hdoc.2.2.2 hverb
    · simp only [verbRecommendations, if_neg hv, List.not_mem_nil] at hverb

/-- C3: a section whose detection regex does not match scores 0 and the
corresponding "Add a … section" recommendation is emitted. -/
theorem absent_section_scores_zero_with_recommendation (text : List Char)
    (name : String) (alts : List (List Char)) (hmem : (name, alts) ∈ sections)
    (habs : hasSection alts text = false) :
    (analyzeResume text).scores.lookup name = some 0 ∧
    ("Add a " ++ name ++ " section to your resume") ∈
      (analyzeResume text).recommendations := by
  constructor
  · rw [analyzeResume_scores, sectionScores_lookup text hmem, habs]
    simp [calculateSectionScore]
  · exact mem_recommendations_of_sectionOutput text hmem (by simp [sectionOutput, habs])

/-- Witness for C3: on the empty string, the contact regex does not match, the
contact score is 0 and the "add" recommendation is present. -/
theorem absent_section_scores_zero_with_recommendation_witness :
    ("contact", contactAlts) ∈ sections ∧
    hasSection contactAlts ("".data) = false ∧
    ((analyzeResume ("".data)).scores.lookup ("contact") = some 0 ∧
      ("Add a " ++ "contact" ++ " section to your resume") ∈
        (analyzeResume ("".data)).recommendations) :=
  ⟨by decide, by decide,
    absent_section_scores_zero_with_recommendation ("".data) ("contact") contactAlts
      (by decide) (by decide)⟩

/-- C4: a section detected as present whose extracted segment has at least 100
words scores 100, emits the "Strong … section" finding, and emits no
recommendation about that section. -/
theorem strong_section_scores_100 (text : List Char) (name : String)
    (alts : List (List Char)) (hmem : (name, alts) ∈ sections)
    (hpres : hasSection alts text = true) (hwc : 100 ≤ sectionWordCount alts text) :
    (analyzeResume text).scores.lookup name = some 100 ∧
    ("Strong " ++ name ++ " section with " ++
        toString (sectionWordCount alts text) ++ " words") ∈
      (analyzeResume text).findings ∧
    ("Add a " ++ name ++ " section to your resume") ∉
      (analyzeResume text).recommendations ∧
    ("Expand your " ++ name ++ " section with more details") ∉
      (analyzeResume text).recommendations := by
  have h20 : ¬ sectionWordCount alts text < 20 := by omega
  have hnone : (sectionOutput text name alts).1 = none := by
    simp [sectionOutput, hpres, h20]
  refine ⟨?_, ?_, ?_, ?_⟩
  · rw [analyzeResume_scores, sectionScores_lookup text hmem, hpres]
    have h50 : ¬ sectionWordCount alts text < 50 := by omega
    have h100 : ¬ sectionWordCount alts text < 100 := by omega
    simp [calculateSectionScore, h20, h50, h100]
  · exact mem_findings_of_sectionOutput text hmem (by simp [sectionOutput, hpres, h20])
  · exact section_message_not_in_recommendations text hmem hnone _ (Or.inl rfl)
  · exact section_message_not_in_recommendations text hmem hnone _ (Or.inr rfl)

set_option maxRecDepth 100000 in
/-- Witness for C4: a contact section followed by one hundred words scores 100
with the strong-section finding and no contact recommendation. -/
theorem strong_section_scores_100_witness :
    ("contact", contactAlts) ∈ sections ∧
    hasSection contactAlts strongContactText = true ∧
    100 ≤ sectionWordCount contactAlts strongContactText ∧
    ((analyzeResume strongContactText).scores.lookup ("contact") = some 100 ∧
      ("Strong " ++ "contact" ++ " section with " ++
          toString (sectionWordCount contactAlts strongContactText) ++ " words") ∈
        (analyzeResume strongContactText).findings ∧
      ("Add a " ++ "contact" ++ " section to your resume") ∉
        (analyzeResume strongContactText).recommendations ∧
      ("Expand your " ++ "contact" ++ " section with more details") ∉
        (analyzeResume strongContactText).recommendations) :=
  ⟨by decide, by decide, by decide,
    strong_section_scores_100 strongContactText ("contact") contactAlts
      (by decide) (by decide) (by decide)⟩

/-- C9: splitting on whitespace always yields at least one word, so a present
section never sees word count 0 and always scores at least 40 — the absent
score value 0 is unreachable for a present section. -/
theorem present_section_scores_at_least_forty (text : List Char) (name : String)
    (alts : List (List Char)) (hmem : (name, alts) ∈ sections)
    (hpres : hasSection alts text = true) :
    1 ≤ sectionWordCount alts text ∧
    ∃ v, (analyzeResume text).scores.lookup name = some v ∧ 40 ≤ v := by
  refine ⟨one_le_splitWs_length _, ?_⟩
  rw [analyzeResume_scores, sectionScores_lookup text hmem, hpres]
  exact ⟨_, rfl, calculateSectionScore_present_ge_40 _⟩

/-- Witness for C9: a present contact section with a tiny body still has word
count at least 1 and score at least 40. -/
theorem present_section_scores_at_least_forty_witness :
    ("contact", contactAlts) ∈ sections ∧
    hasSection contactAlts shortContactText = true ∧
    (1 ≤ sectionWordCount contactAlts shortContactText ∧
      ∃ v, (analyzeResume shortContactText).scores.lookup ("contact") = some v ∧ 40 ≤ v) :=
  ⟨by decide, by decide,
    present_section_scores_at_least_forty shortContactText ("contact") contactAlts
      (by decide) (by decide)⟩

/-- C10: the action-verb count matches verbs as substrings: a text containing
`led` only inside the word `misled` (and containing no listed verb as a
standalone word) still gets a positive count. -/
theorem actionVerbCount_matches_substrings :
    (splitWs (jsToLower misledText)).all (fun w => !(actionVerbs.contains w)) = true ∧
    0 < actionVerbCount misledText := by decide

end ResumeAnalysis
